import Mathlib

/-!
Shallow embedding of the NEP 2025 scheduling decision layer
(`validation_engine_prototype.py` and `solver_engine_prototype.py`)
and proofs about the frozen claims C1-C10.

Conventions of the embedding:
* Python `float` arithmetic is modelled over `ℚ` (all constants in the
  source are decimal literals; no claim depends on rounding error).
* Python dicts keyed by entity id are modelled either as association
  lists with overwrite-on-duplicate semantics or, for the per-run
  booking maps whose values are never empty lists, as total functions
  `String → List String` where `[]` stands for an absent key.
* Diagnostic free-text fields (`description`, `technical_details`,
  `suggested_fix`), timestamps and log/file side effects are omitted;
  no claim mentions them.  Leading underscores of Python method names
  are dropped because Lean reserves them.
-/

namespace NEP

/-! ## Data model of the validation engine -/

/-- `ViolationSeverity` enum of `validation_engine_prototype.py`. -/
inductive ViolationSeverity where
  | INFO | WARNING | ERROR | CRITICAL
  deriving DecidableEq, Repr

/-- `ViolationType` enum of `validation_engine_prototype.py`. -/
inductive ViolationType where
  | FACULTY_DOUBLE_BOOKING
  | ROOM_DOUBLE_BOOKING
  | BATCH_TIME_CONFLICT
  | EQUIPMENT_UNAVAILABLE
  | ROOM_CAPACITY_EXCEEDED
  | FACULTY_COMPETENCY_MISMATCH
  | MISSING_COURSE_ASSIGNMENT
  | INVALID_FACULTY_REFERENCE
  | INVALID_ROOM_REFERENCE
  | INVALID_TIME_SLOT_REFERENCE
  | MISSING_BATCH_ASSIGNMENT
  | FACULTY_PREFERENCE_VIOLATED
  | SUBOPTIMAL_ROOM_ASSIGNMENT
  | NON_PREFERRED_TIME_SLOT
  | UNBALANCED_WORKLOAD
  | LEARNING_OUTCOME_SUBOPTIMAL
  | DUPLICATE_ASSIGNMENT
  deriving DecidableEq, Repr

/-- `ValidationViolation` dataclass, reduced to the fields the claims
observe.  `conflicting_time_slot` embeds the
`data_context['conflicting_time_slot']` entry that the three conflict
violations carry (`none` for all other violation kinds). -/
structure ValidationViolation where
  violation_type : ViolationType
  severity : ViolationSeverity
  entity_id : String
  entity_type : String
  weight : ℚ
  is_critical : Bool
  conflicting_time_slot : Option String
  deriving DecidableEq, Repr

/-- One room record of the data matrix: `room_id` key and the
`capacity` field read via `.get('capacity', 0)`. -/
structure RoomRec where
  room_id : String
  capacity : ℤ
  deriving DecidableEq, Repr

/-- One batch record of the data matrix: `batch_id` key and the
`student_count` field read via `.get('student_count', 0)`. -/
structure BatchRec where
  batch_id : String
  student_count : ℤ
  deriving DecidableEq, Repr

/-- The reference data matrix handed to `_validate_solution`: the five
entity collections under `data_matrix['data']`, each record reduced to
the fields the validator reads (courses, faculty and time slots are
consulted only through their id). -/
structure DataMatrix where
  courses : List String
  faculty : List String
  rooms : List RoomRec
  time_slots : List String
  batches : List BatchRec
  deriving Repr

/-- One solver-output entry; `_validate_single_entry` reads exactly
these five keys (via `entry.get(key, '')`). -/
structure Entry where
  course_id : String
  faculty_id : String
  room_id : String
  time_slot_id : String
  batch_id : String
  deriving DecidableEq, Repr

/-- The ids of the rooms collection, i.e. the keys of `room_lookup`. -/
def roomIds (ds : DataMatrix) : List String := ds.rooms.map (·.room_id)

/-- The ids of the batches collection, i.e. the keys of `batch_lookup`. -/
def batchIds (ds : DataMatrix) : List String := ds.batches.map (·.batch_id)

/-- `room_lookup[room_id].get('capacity', 0)`: a Python dict
comprehension keeps the last record for a duplicated id, hence the
reversed search. -/
def room_capacity (ds : DataMatrix) (id : String) : ℤ :=
  match ds.rooms.reverse.find? (fun r => r.room_id == id) with
  | some r => r.capacity
  | none => 0

/-- `batch_lookup[batch_id].get('student_count', 0)`, last record wins
for a duplicated id. -/
def batch_student_count (ds : DataMatrix) (id : String) : ℤ :=
  match ds.batches.reverse.find? (fun b => b.batch_id == id) with
  | some b => b.student_count
  | none => 0

/-- `violation_definitions`: weight and criticality per violation
kind, as initialised in `ValidationEngine.__init__`. -/
def violation_definitions : ViolationType → ℚ × Bool
  | .FACULTY_DOUBLE_BOOKING => (10, true)
  | .ROOM_DOUBLE_BOOKING => (10, true)
  | .BATCH_TIME_CONFLICT => (10, true)
  | .EQUIPMENT_UNAVAILABLE => (8, true)
  | .ROOM_CAPACITY_EXCEEDED => (9, true)
  | .FACULTY_COMPETENCY_MISMATCH => (7, true)
  | .MISSING_COURSE_ASSIGNMENT => (8, true)
  | .INVALID_FACULTY_REFERENCE => (9, true)
  | .INVALID_ROOM_REFERENCE => (9, true)
  | .INVALID_TIME_SLOT_REFERENCE => (8, true)
  | .MISSING_BATCH_ASSIGNMENT => (7, true)
  | .FACULTY_PREFERENCE_VIOLATED => (3, false)
  | .SUBOPTIMAL_ROOM_ASSIGNMENT => (2, false)
  | .NON_PREFERRED_TIME_SLOT => (5/2, false)
  | .UNBALANCED_WORKLOAD => (4, false)
  | .LEARNING_OUTCOME_SUBOPTIMAL => (7/2, false)
  | .DUPLICATE_ASSIGNMENT => (6, false)

/-! ## Per-run booking state -/

/-- The three running booking maps of `_validate_solution`
(`faculty_assignments`, `room_assignments`, `batch_assignments`).
A Python dict `id -> [time_slot_id]` whose value lists are never empty
is modelled as a total function with `[]` for an absent key. -/
structure BookState where
  faculty_assignments : String → List String
  room_assignments : String → List String
  batch_assignments : String → List String

/-- Fresh booking state: the three empty dicts created at the top of
`_validate_solution`. -/
def initState : BookState :=
  ⟨fun _ => [], fun _ => [], fun _ => []⟩

/-- Pointwise dict update. -/
def updateMap (m : String → List String) (k : String) (v : List String) :
    String → List String :=
  fun x => if x = k then v else m x

/-- Build the conflict violation emitted by one of the three
double-booking checks. -/
def mkConflictViolation (vt : ViolationType) (etype id slot : String) :
    ValidationViolation :=
  ⟨vt, .CRITICAL, id, etype, (violation_definitions vt).1, true, some slot⟩

/-- One conflict check of `_validate_single_entry`: look up the
entity's booked slots, emit a violation if the slot is already booked,
otherwise record the slot (mirrors the
`if key in dict / if slot in list / append / initialise` shape of the
source). -/
def conflictStep (m : String → List String) (vt : ViolationType)
    (etype key slot : String) :
    List ValidationViolation × (String → List String) :=
  if m key ≠ [] then
    if slot ∈ m key then
      ([mkConflictViolation vt etype key slot], m)
    else
      ([], updateMap m key (m key ++ [slot]))
  else
    ([], updateMap m key [slot])

/-- The referential-integrity violations of `_validate_single_entry`
(section "1. Data integrity validation").  Note from the source: a
missing course id is reported with type `INVALID_FACULTY_REFERENCE`
(entity type COURSE), and a missing batch id with type
`MISSING_BATCH_ASSIGNMENT`. -/
def referenceViolations (e : Entry) (ds : DataMatrix) :
    List ValidationViolation :=
  (if e.course_id ≠ "" ∧ e.course_id ∉ ds.courses then
    [⟨.INVALID_FACULTY_REFERENCE, .CRITICAL, e.course_id, "COURSE",
      (violation_definitions .INVALID_FACULTY_REFERENCE).1, true, none⟩]
  else []) ++
  (if e.faculty_id ≠ "" ∧ e.faculty_id ∉ ds.faculty then
    [⟨.INVALID_FACULTY_REFERENCE, .CRITICAL, e.faculty_id, "FACULTY",
      (violation_definitions .INVALID_FACULTY_REFERENCE).1, true, none⟩]
  else []) ++
  (if e.room_id ≠ "" ∧ e.room_id ∉ roomIds ds then
    [⟨.INVALID_ROOM_REFERENCE, .CRITICAL, e.room_id, "ROOM",
      (violation_definitions .INVALID_ROOM_REFERENCE).1, true, none⟩]
  else []) ++
  (if e.time_slot_id ≠ "" ∧ e.time_slot_id ∉ ds.time_slots then
    [⟨.INVALID_TIME_SLOT_REFERENCE, .CRITICAL, e.time_slot_id, "TIME_SLOT",
      (violation_definitions .INVALID_TIME_SLOT_REFERENCE).1, true, none⟩]
  else []) ++
  (if e.batch_id ≠ "" ∧ e.batch_id ∉ batchIds ds then
    [⟨.MISSING_BATCH_ASSIGNMENT, .CRITICAL, e.batch_id, "BATCH",
      (violation_definitions .MISSING_BATCH_ASSIGNMENT).1, true, none⟩]
  else [])

/-- The gate of section "2. Conflict detection":
`all([faculty_id in faculty_lookup, room_id in room_lookup,
time_slot_id in time_slot_lookup, batch_id in batch_lookup])`.
The course id is not part of this test in the source. -/
def resolves4 (ds : DataMatrix) (e : Entry) : Prop :=
  e.faculty_id ∈ ds.faculty ∧ e.room_id ∈ roomIds ds ∧
    e.time_slot_id ∈ ds.time_slots ∧ e.batch_id ∈ batchIds ds

instance (ds : DataMatrix) (e : Entry) : Decidable (resolves4 ds e) := by
  unfold resolves4; infer_instance

/-- All five ids of an entry resolve in the data matrix (the
hypothesis of claims C1 and C4). -/
def resolvesAll (ds : DataMatrix) (e : Entry) : Prop :=
  e.course_id ∈ ds.courses ∧ resolves4 ds e

instance (ds : DataMatrix) (e : Entry) : Decidable (resolvesAll ds e) := by
  unfold resolvesAll; infer_instance

/-- `_validate_single_entry`: referential checks, then — only when the
four looked-up ids of the conflict gate resolve — the three conflict
checks followed by the capacity check, returning the violations in
emission order together with the updated booking state.  (The
`entry_idx` parameter of the source feeds only omitted diagnostic
strings.) -/
def validate_single_entry (e : Entry) (ds : DataMatrix) (st : BookState) :
    List ValidationViolation × BookState :=
  let refVs := referenceViolations e ds
  if resolves4 ds e then
    let fp := conflictStep st.faculty_assignments .FACULTY_DOUBLE_BOOKING
      "FACULTY" e.faculty_id e.time_slot_id
    let rp := conflictStep st.room_assignments .ROOM_DOUBLE_BOOKING
      "ROOM" e.room_id e.time_slot_id
    let bp := conflictStep st.batch_assignments .BATCH_TIME_CONFLICT
      "BATCH" e.batch_id e.time_slot_id
    let capVs :=
      if batch_student_count ds e.batch_id > room_capacity ds e.room_id then
        [⟨.ROOM_CAPACITY_EXCEEDED, .CRITICAL, e.room_id, "ROOM",
          (violation_definitions .ROOM_CAPACITY_EXCEEDED).1, true, none⟩]
      else []
    (refVs ++ fp.1 ++ rp.1 ++ bp.1 ++ capVs, ⟨fp.2, rp.2, bp.2⟩)
  else
    (refVs, st)

/-- The per-entry loop of `_validate_solution`: fold
`_validate_single_entry` over the solver output in encounter order,
threading the booking state and accumulating violations. -/
def runEntries (ds : DataMatrix) :
    List Entry → BookState → List ValidationViolation × BookState
  | [], st => ([], st)
  | e :: es, st =>
    let p := validate_single_entry e ds st
    let q := runEntries ds es p.2
    (p.1 ++ q.1, q.2)

/-- `_validate_system_constraints`: one CRITICAL
`MISSING_COURSE_ASSIGNMENT` violation per data-matrix course id that no
entry schedules.  (The source iterates a Python set difference, whose
order is unspecified; the embedding fixes first-occurrence order — the
claims only use the count and membership of this list.) -/
def validate_system_constraints (solver_output : List Entry)
    (ds : DataMatrix) : List ValidationViolation :=
  let scheduled := (solver_output.map (·.course_id)).filter (· ≠ "")
  let missing := ds.courses.dedup.filter (fun c => c ∉ scheduled)
  missing.map (fun c =>
    ⟨.MISSING_COURSE_ASSIGNMENT, .CRITICAL, c, "COURSE",
      (violation_definitions .MISSING_COURSE_ASSIGNMENT).1, true, none⟩)

/-- The two score fields of the quality-metrics dict that downstream
code reads back (the remaining dict entries are derived diagnostics).
`round(·, k)` display rounding of the source is omitted. -/
structure QualityMetrics where
  quality_score : ℚ
  feasibility_score : ℚ
  deriving DecidableEq, Repr

/-- `_calculate_quality_metrics`. -/
def calculate_quality_metrics (violations : List ValidationViolation)
    (solver_output : List Entry) : QualityMetrics :=
  let total_entries := solver_output.length
  if total_entries = 0 then ⟨0, 0⟩
  else
    let total_weighted_score := (violations.map (·.weight)).sum
    let critical_violations := violations.countP (·.is_critical)
    let quality_score : ℚ :=
      if total_weighted_score = 0 then 10
      else
        let avg_violation_weight : ℚ :=
          if violations ≠ [] then total_weighted_score / violations.length
          else 0
        max 1 (10 - (avg_violation_weight / total_entries) * 10)
    let feasibility_score : ℚ :=
      max 0 (1 - (critical_violations : ℚ) / total_entries)
    ⟨quality_score, feasibility_score⟩

/-- `ValidationResult` dataclass, reduced to the fields the claims and
the threshold gate observe. -/
structure ValidationResult where
  overall_status : String
  total_violations : ℕ
  critical_violations : ℕ
  warning_violations : ℕ
  violation_details : List ValidationViolation
  quality_metrics : QualityMetrics
  deriving Repr

/-- `_validate_solution`: per-entry pass, system-wide pass, status and
quality metrics. -/
def validate_solution (solver_output : List Entry) (ds : DataMatrix) :
    ValidationResult :=
  let entryVs := (runEntries ds solver_output initState).1
  let violations := entryVs ++ validate_system_constraints solver_output ds
  let critical := violations.filter (·.is_critical)
  let warning := violations.filter (fun v => ¬ v.is_critical)
  let overall_status :=
    if critical.length > 0 then "FAIL"
    else if warning.length > 0 then "WARNING"
    else "PASS"
  { overall_status := overall_status
    total_violations := violations.length
    critical_violations := critical.length
    warning_violations := warning.length
    violation_details := violations
    quality_metrics := calculate_quality_metrics violations solver_output }

/-! ## Threshold gate -/

/-- The fixed `thresholds` table of `ValidationEngine.__init__`. -/
structure Thresholds where
  critical_violation_ratio_limit : ℚ
  total_violation_ratio_limit : ℚ
  weighted_score_threshold : ℚ
  feasibility_threshold : ℚ
  quality_score_threshold : ℚ

/-- The constants: 0.05, 0.15, 25.0, 0.95, 7.0. -/
def thresholds : Thresholds :=
  ⟨1/20, 3/20, 25, 19/20, 7⟩

/-- The per-threshold dict produced by `_analyze_thresholds`. -/
structure ThresholdResults where
  critical_ratio : ℚ
  critical_ratio_pass : Bool
  total_ratio : ℚ
  total_ratio_pass : Bool
  weighted_score : ℚ
  weighted_score_pass : Bool
  quality_score : ℚ
  quality_score_pass : Bool
  feasibility_score : ℚ
  feasibility_score_pass : Bool
  overall_pass : Bool
  deriving DecidableEq, Repr

/-- `_analyze_thresholds`.  Note from the source: the denominator of
both ratios is the hard-coded `total_assignments = 100` ("Placeholder -
should be calculated from actual data"); the function receives no
entry count at all. -/
def analyze_thresholds (vr : ValidationResult) : ThresholdResults :=
  let total_assignments : ℚ := 100
  let critical_ratio : ℚ :=
    if total_assignments > 0 then (vr.critical_violations : ℚ) / total_assignments else 0
  let total_ratio : ℚ :=
    if total_assignments > 0 then (vr.total_violations : ℚ) / total_assignments else 0
  let weighted_score : ℚ := (vr.violation_details.map (·.weight)).sum
  let quality_score := vr.quality_metrics.quality_score
  let feasibility_score := vr.quality_metrics.feasibility_score
  let critical_ratio_pass := decide (critical_ratio ≤ thresholds.critical_violation_ratio_limit)
  let total_ratio_pass := decide (total_ratio ≤ thresholds.total_violation_ratio_limit)
  let weighted_score_pass := decide (weighted_score ≤ thresholds.weighted_score_threshold)
  let quality_score_pass := decide (quality_score ≥ thresholds.quality_score_threshold)
  let feasibility_score_pass := decide (feasibility_score ≥ thresholds.feasibility_threshold)
  { critical_ratio := critical_ratio
    critical_ratio_pass := critical_ratio_pass
    total_ratio := total_ratio
    total_ratio_pass := total_ratio_pass
    weighted_score := weighted_score
    weighted_score_pass := weighted_score_pass
    quality_score := quality_score
    quality_score_pass := quality_score_pass
    feasibility_score := feasibility_score
    feasibility_score_pass := feasibility_score_pass
    overall_pass := critical_ratio_pass && total_ratio_pass && weighted_score_pass &&
      quality_score_pass && feasibility_score_pass }

/-! ## Counting helpers used by the claims -/

/-- Number of violations of kind `vt` attached to entity `id` and
conflicting slot `slot` (the identification the three double-booking
violations carry). -/
def conflictCount (vt : ViolationType) (id slot : String)
    (vs : List ValidationViolation) : ℕ :=
  vs.countP (fun v => decide (v.violation_type = vt ∧ v.entity_id = id ∧
    v.conflicting_time_slot = some slot))

/-- Number of entries binding entity `id` (selected by `sel`) to time
slot `t`. -/
def pairCount (sel : Entry → String) (id t : String) (es : List Entry) : ℕ :=
  es.countP (fun e => decide (sel e = id ∧ e.time_slot_id = t))

/-! ## Solver engine: complexity profiler -/

/-- `ComplexityProfile` dataclass of `solver_engine_prototype.py`
(timestamp and `processing_metrics` diagnostics omitted). -/
structure ComplexityProfile where
  combinatorial_score : ℚ
  constraint_complexity : ℚ
  resource_competition : ℚ
  schedule_density : ℚ
  overall_complexity : ℚ
  difficulty_level : String
  deriving DecidableEq, Repr

/-- The seven collections `analyze_complexity` extracts from the
optimization matrix; every use in the four scoring helpers is through
`len(...)` or emptiness, so each collection is embedded as its
length. -/
structure MatrixCounts where
  courses : ℕ
  faculty : ℕ
  rooms : ℕ
  time_slots : ℕ
  batches : ℕ
  hard_constraints : ℕ
  soft_constraints : ℕ
  deriving DecidableEq, Repr

/-- The dynamically-typed `optimization_matrix` dict argument: either
a well-formed matrix, or a value whose field accesses raise inside the
`try` block of `analyze_complexity` (e.g. `data` bound to a string, so
`.get` raises `AttributeError`). -/
inductive OptimizationMatrix where
  | wellFormed (counts : MatrixCounts)
  | malformed (msg : String)
  deriving DecidableEq, Repr

/-- `_analyze_combinatorial_complexity`. -/
def analyze_combinatorial_complexity (courses faculty rooms time_slots batches : ℕ) : ℚ :=
  if courses = 0 ∨ faculty = 0 ∨ rooms = 0 ∨ time_slots = 0 ∨ batches = 0 then 10
  else
    let decision_variables : ℚ := (courses : ℚ) * time_slots * batches
    let faculty_reduction : ℚ := min 1 ((faculty : ℚ) / courses)
    let room_reduction : ℚ := min 1 ((rooms : ℚ) / ((courses : ℚ) * (3/10)))
    let effective_complexity := decision_variables * faculty_reduction * room_reduction
    if effective_complexity < 100 then 1 + (effective_complexity / 100) * 2
    else if effective_complexity < 1000 then 3 + ((effective_complexity - 100) / 900) * 2
    else if effective_complexity < 10000 then 5 + ((effective_complexity - 1000) / 9000) * 2
    else if effective_complexity < 100000 then 7 + ((effective_complexity - 10000) / 90000) * 2
    else 9 + min 1 ((effective_complexity - 100000) / 900000)

/-- `_analyze_constraint_complexity` (the source receives the two
constraint lists and reads only their lengths). -/
def analyze_constraint_complexity (hard_constraints soft_constraints : ℕ) : ℚ :=
  let total_constraints := hard_constraints + soft_constraints
  if total_constraints = 0 then 1
  else
    let hard_impact : ℚ := (hard_constraints : ℚ) * 2
    let soft_impact : ℚ := (soft_constraints : ℚ) * 1
    let constraint_score := (hard_impact + soft_impact) / 5
    let interdependency_factor : ℚ :=
      if total_constraints > 5 then 1 + ((total_constraints : ℚ) - 5) * (1/10) else 1
    min 10 (constraint_score * interdependency_factor)

/-- `_analyze_resource_competition` (reads only lengths/emptiness of
the four collections). -/
def analyze_resource_competition (courses faculty rooms time_slots : ℕ) : ℚ :=
  if courses = 0 ∨ faculty = 0 ∨ rooms = 0 ∨ time_slots = 0 then 8
  else
    let faculty_ratio : ℚ := if faculty > 0 then (courses : ℚ) / faculty else 10
    let faculty_competition := min 10 ((faculty_ratio - 1) * 2)
    let room_capacity : ℚ := (rooms : ℚ) * time_slots * (7/10)
    let room_competition : ℚ :=
      if room_capacity > 0 then min 10 (((courses : ℚ) / room_capacity) * 5) else 10
    faculty_competition * (6/10) + room_competition * (4/10)

/-- `_analyze_schedule_density` (reads only lengths/emptiness). -/
def analyze_schedule_density (courses time_slots batches : ℕ) : ℚ :=
  if courses = 0 ∨ time_slots = 0 ∨ batches = 0 then 5
  else
    let sessions_per_course : ℚ := 3
    let total_sessions_required := (courses : ℚ) * batches * sessions_per_course
    let available_slots_per_week := (time_slots : ℚ) * 5
    let density_ratio : ℚ :=
      if available_slots_per_week > 0 then total_sessions_required / available_slots_per_week
      else 1
    min 10 (density_ratio * 10)

/-- `_classify_difficulty`. -/
def classify_difficulty (overall_score : ℚ) : String :=
  if overall_score ≤ 3 then "SIMPLE"
  else if overall_score ≤ 5 then "MODERATE"
  else if overall_score ≤ 15/2 then "COMPLEX"
  else "EXTREME"

/-- The body of the `try` block of `analyze_complexity`: extraction of
the collections followed by the four scores, the weighted overall and
the difficulty label; a malformed input raises, modelled as
`Except.error`. -/
def analyze_complexity_body : OptimizationMatrix → Except String ComplexityProfile
  | .malformed msg => .error msg
  | .wellFormed c =>
    let combinatorial_score :=
      analyze_combinatorial_complexity c.courses c.faculty c.rooms c.time_slots c.batches
    let constraint_score := analyze_constraint_complexity c.hard_constraints c.soft_constraints
    let competition_score := analyze_resource_competition c.courses c.faculty c.rooms c.time_slots
    let density_score := analyze_schedule_density c.courses c.time_slots c.batches
    let overall_score := combinatorial_score * (35/100) + constraint_score * (30/100) +
      competition_score * (20/100) + density_score * (15/100)
    .ok ⟨combinatorial_score, constraint_score, competition_score, density_score,
      overall_score, classify_difficulty overall_score⟩

/-- The safe default profile returned by the `except` branch of
`analyze_complexity`. -/
def neutral_profile : ComplexityProfile :=
  ⟨5, 5, 5, 5, 5, "MODERATE"⟩

/-- `analyze_complexity`: run the body, catch any raised error and
return the safe default values instead. -/
def analyze_complexity (optimization_matrix : OptimizationMatrix) : ComplexityProfile :=
  match analyze_complexity_body optimization_matrix with
  | .ok p => p
  | .error _ => neutral_profile

/-! ## Solver engine: solver selector -/

/-- The `complexity_preferences` dict of a `SolverInfo` (the four keys
read through `prefs.get(key, (1, 10))`; every catalog entry in the
source supplies all four). -/
structure ComplexityPreferences where
  combinatorial : ℚ × ℚ
  constraint : ℚ × ℚ
  competition : ℚ × ℚ
  density : ℚ × ℚ
  deriving DecidableEq, Repr

/-- `SolverInfo`, reduced to the fields `_calculate_solver_score` and
`select_best_solver` read. -/
structure SolverInfo where
  name : String
  complexity_preferences : ComplexityPreferences
  suitability_threshold : ℚ
  deriving DecidableEq, Repr

/-- `SolverSelection` dataclass (`complexity_profile` back-reference
and the rationale string omitted). -/
structure SolverSelection where
  selected_solver_name : String
  selection_score : ℚ
  all_solver_scores : List (String × ℚ)
  confidence_level : ℚ
  alternative_solvers : List (String × ℚ)
  deriving DecidableEq, Repr

/-- `_score_dimension`. -/
def score_dimension (actual_value : ℚ) (preferred_range : ℚ × ℚ) : ℚ :=
  let min_pref := preferred_range.1
  let max_pref := preferred_range.2
  if min_pref ≤ actual_value ∧ actual_value ≤ max_pref then 1
  else if actual_value < min_pref then
    max 0 (1 - (min_pref - actual_value) / min_pref)
  else
    max 0 (1 - (actual_value - max_pref) / (10 - max_pref))

/-- `_calculate_solver_score`. -/
def calculate_solver_score (profile : ComplexityProfile) (solver_info : SolverInfo) : ℚ :=
  let prefs := solver_info.complexity_preferences
  let combinatorial_score := score_dimension profile.combinatorial_score prefs.combinatorial
  let constraint_score := score_dimension profile.constraint_complexity prefs.constraint
  let competition_score := score_dimension profile.resource_competition prefs.competition
  let density_score := score_dimension profile.schedule_density prefs.density
  let threshold_penalty : ℚ :=
    if profile.overall_complexity > solver_info.suitability_threshold then
      (profile.overall_complexity - solver_info.suitability_threshold) * (1/10)
    else 0
  let weighted_score := combinatorial_score * (35/100) + constraint_score * (30/100) +
    competition_score * (20/100) + density_score * (15/100) - threshold_penalty
  max 0 (min 1 weighted_score)

/-- Python dict assignment `d[k] = v`: overwrite in place when the key
exists, else append. -/
def dictInsert (m : List (String × ℚ)) (k : String) (v : ℚ) : List (String × ℚ) :=
  if m.any (fun p => p.1 == k) then
    m.map (fun p => if p.1 == k then (k, v) else p)
  else m ++ [(k, v)]

/-- The `solver_scores` dict built by the scoring loop of
`select_best_solver`. -/
def solver_scores (profile : ComplexityProfile) (available_solvers : List SolverInfo) :
    List (String × ℚ) :=
  available_solvers.foldl
    (fun m s => dictInsert m s.name (calculate_solver_score profile s)) []

/-- Python `max(d, key=d.get)` over a dict: the first key-value pair
attaining the maximal value, `none` on an empty dict (where CPython
raises `ValueError`). -/
def pyMaxByValue : List (String × ℚ) → Option (String × ℚ)
  | [] => none
  | p :: ps => some (ps.foldl (fun acc q => if q.2 > acc.2 then q else acc) p)

/-- Python `max(d.values())` (0 on the empty dict, unused there). -/
def valuesMax : List (String × ℚ) → ℚ
  | [] => 0
  | p :: ps => (ps.map (·.2)).foldl max p.2

/-- Python `min(d.values())` (0 on the empty dict, unused there). -/
def valuesMin : List (String × ℚ) → ℚ
  | [] => 0
  | p :: ps => (ps.map (·.2)).foldl min p.2

/-- Descending insertion by score, used to embed
`sorted(..., key=lambda x: x[1], reverse=True)`. -/
def insertDesc (p : String × ℚ) : List (String × ℚ) → List (String × ℚ)
  | [] => [p]
  | q :: qs => if q.2 < p.2 then p :: q :: qs else q :: insertDesc p qs

/-- Descending sort by score (ordering of ties is not observed by any
claim). -/
def sortDesc (l : List (String × ℚ)) : List (String × ℚ) :=
  l.foldr insertDesc []

/-- `select_best_solver`, parameterised by the `available_solvers`
instance attribute.  An empty catalog makes `max(...)` raise, which
the `except` branch converts into the hard-coded default selection
("Greedy Best-Fit", score 0.7, confidence 0.5). -/
def select_best_solver (complexity_profile : ComplexityProfile)
    (available_solvers : List SolverInfo) : SolverSelection :=
  let scores := solver_scores complexity_profile available_solvers
  match pyMaxByValue scores with
  | none =>
    { selected_solver_name := "Greedy Best-Fit"
      selection_score := 7/10
      all_solver_scores := [("Greedy Best-Fit", 7/10)]
      confidence_level := 1/2
      alternative_solvers := [] }
  | some best =>
    let alternatives := sortDesc (scores.filter (fun p => p.1 ≠ best.1))
    let score_spread := valuesMax scores - valuesMin scores
    let confidence := min 1 (best.2 * (1 + score_spread))
    { selected_solver_name := best.1
      selection_score := best.2
      all_solver_scores := scores
      confidence_level := confidence
      alternative_solvers := alternatives }

/-! ## Concrete inputs used by witnesses and counterexamples -/

/-- Witness data matrix: one course, one faculty member, three rooms,
one time slot, three batches. -/
def dsW : DataMatrix :=
  ⟨["C1"], ["F1"], [⟨"R1", 100⟩, ⟨"R2", 100⟩, ⟨"R3", 100⟩], ["T1"],
   [⟨"B1", 10⟩, ⟨"B2", 10⟩, ⟨"B3", 10⟩]⟩

/-- Three fully-resolving entries sharing faculty F1 and slot T1 in
distinct rooms and batches. -/
def esW : List Entry :=
  [⟨"C1", "F1", "R1", "T1", "B1"⟩, ⟨"C1", "F1", "R2", "T1", "B2"⟩,
   ⟨"C1", "F1", "R3", "T1", "B3"⟩]

/-- Minimal matrix with a single record per collection (room capacity
30, batch size 20). -/
def dsOne : DataMatrix :=
  ⟨["C1"], ["F1"], [⟨"R1", 30⟩], ["T1"], [⟨"B1", 20⟩]⟩

/-- A fully-resolving entry over `dsOne`. -/
def eOne : Entry := ⟨"C1", "F1", "R1", "T1", "B1"⟩

/-- A matrix whose only collection is one course (for the
empty-assignment counterexample). -/
def dsCourseOnly : DataMatrix := ⟨["C1"], [], [], [], []⟩

/-- An entry whose course id does not resolve while faculty, room,
time slot and batch all do. -/
def eBadCourse : Entry := ⟨"CX", "F1", "R1", "T1", "B1"⟩

/-- An entry whose batch id does not resolve while the other four ids
do. -/
def eBadBatch : Entry := ⟨"C1", "F1", "R1", "T1", "BX"⟩

/-- Capacity-conflict matrix: room capacity 10 smaller than batch size
50. -/
def dsSmallRoom : DataMatrix :=
  ⟨["C1"], ["F1"], [⟨"R1", 10⟩], ["T1"], [⟨"B1", 50⟩]⟩

/-- An entry over `dsSmallRoom` whose faculty id does not resolve but
whose room and batch both do, with batch size exceeding capacity. -/
def eBadFaculty : Entry := ⟨"C1", "FX", "R1", "T1", "B1"⟩

/-- A validation report with 2 critical of 3 total violations whose
weights sum to 30, quality 8 and feasibility 0.96 (the §8 scenario:
every threshold except the weighted score passes). -/
def scenarioReport : ValidationResult :=
  { overall_status := "FAIL"
    total_violations := 3
    critical_violations := 2
    warning_violations := 1
    violation_details :=
      [⟨.FACULTY_DOUBLE_BOOKING, .CRITICAL, "F1", "FACULTY", 10, true, some "T1"⟩,
       ⟨.ROOM_DOUBLE_BOOKING, .CRITICAL, "R1", "ROOM", 10, true, some "T1"⟩,
       ⟨.DUPLICATE_ASSIGNMENT, .WARNING, "C1", "COURSE", 10, false, none⟩]
    quality_metrics := ⟨8, 24/25⟩ }

/-- A matrix counts record with one of everything except constraints:
0 hard and 1 soft constraint (the C8 failing input). -/
def countsSoftOnly : MatrixCounts := ⟨1, 1, 1, 1, 1, 0, 1⟩

/-- A neutral profile used to instantiate selector witnesses. -/
def profileW : ComplexityProfile := ⟨5, 5, 5, 5, 5, "MODERATE"⟩

/-- A one-element solver catalog used by the C10 witness. -/
def solverW : SolverInfo := ⟨"OnlySolver", ⟨(1, 10), (1, 10), (1, 10), (1, 10)⟩, 7⟩

/-- An entry over `dsOne` none of whose five ids resolves. -/
def eAllBad : Entry := ⟨"CX", "FX", "RX", "TX", "BX"⟩

/-! ## Helper lemmas about the validator -/

theorem countP_ite_singleton (c : Prop) [Decidable c] (x : ValidationViolation)
    (p : ValidationViolation → Bool) :
    (if c then [x] else []).countP p = if c ∧ p x = true then 1 else 0 := by
  split_ifs with h1 h2 h2 <;>
    simp_all [List.countP_cons, List.countP_nil]

theorem conflictStep_fst (m : String → List String) (vt : ViolationType)
    (etype key slot : String) :
    (conflictStep m vt etype key slot).1 =
      if slot ∈ m key then [mkConflictViolation vt etype key slot] else [] := by
  unfold conflictStep
  by_cases h : m key = []
  · simp [h]
  · simp only [h, ne_eq, not_false_eq_true, if_true]
    split_ifs <;> rfl

theorem countP_conflictStep (m : String → List String) (vt : ViolationType)
    (etype key slot : String) (p : ValidationViolation → Bool) :
    ((conflictStep m vt etype key slot).1).countP p =
      if slot ∈ m key ∧ p (mkConflictViolation vt etype key slot) = true
      then 1 else 0 := by
  rw [conflictStep_fst]
  exact countP_ite_singleton _ _ _

theorem conflictStep_snd_mem (m : String → List String) (vt : ViolationType)
    (etype key slot : String) (f t : String) :
    t ∈ (conflictStep m vt etype key slot).2 f ↔
      t ∈ m f ∨ (key = f ∧ slot = t) := by
  unfold conflictStep
  by_cases h : m key = []
  · simp only [h, ne_eq, not_true_eq_false, if_false]
    by_cases hf : f = key
    · subst hf
      simp [updateMap, h, eq_comm]
    · simp only [updateMap, hf, if_false]
      constructor
      · exact Or.inl
      · rintro (hm | ⟨rfl, rfl⟩)
        · exact hm
        · exact absurd rfl hf
  · simp only [h, ne_eq, not_false_eq_true, if_true]
    by_cases hs : slot ∈ m key
    · simp only [hs, if_true]
      constructor
      · exact Or.inl
      · rintro (hm | ⟨rfl, rfl⟩)
        · exact hm
        · exact hs
    · simp only [hs, if_false]
      by_cases hf : f = key
      · subst hf
        simp [updateMap, eq_comm]
      · simp only [updateMap, hf, if_false]
        constructor
        · exact Or.inl
        · rintro (hm | ⟨rfl, rfl⟩)
          · exact hm
          · exact absurd rfl hf

theorem referenceViolations_type (e : Entry) (ds : DataMatrix) :
    ∀ v ∈ referenceViolations e ds,
      v.violation_type = .INVALID_FACULTY_REFERENCE ∨
      v.violation_type = .INVALID_ROOM_REFERENCE ∨
      v.violation_type = .INVALID_TIME_SLOT_REFERENCE ∨
      v.violation_type = .MISSING_BATCH_ASSIGNMENT := by
  intro v hv
  unfold referenceViolations at hv
  simp only [List.mem_append] at hv
  rcases hv with ((((h | h) | h) | h) | h) <;>
    (split_ifs at h <;> simp_all)

theorem countP_referenceViolations_zero (e : Entry) (ds : DataMatrix)
    (p : ValidationViolation → Bool)
    (hp : ∀ v : ValidationViolation,
      (v.violation_type = .INVALID_FACULTY_REFERENCE ∨
       v.violation_type = .INVALID_ROOM_REFERENCE ∨
       v.violation_type = .INVALID_TIME_SLOT_REFERENCE ∨
       v.violation_type = .MISSING_BATCH_ASSIGNMENT) → p v = false) :
    (referenceViolations e ds).countP p = 0 := by
  rw [List.countP_eq_zero]
  intro v hv
  simp [hp v (referenceViolations_type e ds v hv)]

theorem vse_not_resolves4 (e : Entry) (ds : DataMatrix) (st : BookState)
    (h : ¬ resolves4 ds e) :
    validate_single_entry e ds st = (referenceViolations e ds, st) := by
  unfold validate_single_entry
  simp [h]

theorem vse_resolves4 (e : Entry) (ds : DataMatrix) (st : BookState)
    (h : resolves4 ds e) :
    validate_single_entry e ds st =
      (referenceViolations e ds ++
        (conflictStep st.faculty_assignments .FACULTY_DOUBLE_BOOKING
          "FACULTY" e.faculty_id e.time_slot_id).1 ++
        (conflictStep st.room_assignments .ROOM_DOUBLE_BOOKING
          "ROOM" e.room_id e.time_slot_id).1 ++
        (conflictStep st.batch_assignments .BATCH_TIME_CONFLICT
          "BATCH" e.batch_id e.time_slot_id).1 ++
        (if batch_student_count ds e.batch_id > room_capacity ds e.room_id then
          [⟨.ROOM_CAPACITY_EXCEEDED, .CRITICAL, e.room_id, "ROOM",
            (violation_definitions .ROOM_CAPACITY_EXCEEDED).1, true, none⟩]
        else []),
       ⟨(conflictStep st.faculty_assignments .FACULTY_DOUBLE_BOOKING
          "FACULTY" e.faculty_id e.time_slot_id).2,
        (conflictStep st.room_assignments .ROOM_DOUBLE_BOOKING
          "ROOM" e.room_id e.time_slot_id).2,
        (conflictStep st.batch_assignments .BATCH_TIME_CONFLICT
          "BATCH" e.batch_id e.time_slot_id).2⟩) := by
  unfold validate_single_entry
  simp [h]

/-! ## Claim C7 -/

/-- C7: the gate's overall decision is true exactly when all five
named threshold checks pass (critical ratio ≤ 0.05, total ratio
≤ 0.15, weighted score ≤ 25, quality ≥ 7, feasibility ≥ 0.95, the
ratios being those the gate computes); and the §8 scenario report with
2 critical violations and weighted score 30 is rejected precisely
because the weighted-score threshold fails while the other four pass. -/
theorem C7_overall_gate :
    (∀ vr : ValidationResult,
      (analyze_thresholds vr).overall_pass = true ↔
        ((vr.critical_violations : ℚ) / 100 ≤ 1/20 ∧
         (vr.total_violations : ℚ) / 100 ≤ 3/20 ∧
         (vr.violation_details.map (·.weight)).sum ≤ 25 ∧
         vr.quality_metrics.quality_score ≥ 7 ∧
         vr.quality_metrics.feasibility_score ≥ 19/20)) ∧
    ((analyze_thresholds scenarioReport).weighted_score = 30 ∧
     (analyze_thresholds scenarioReport).critical_ratio_pass = true ∧
     (analyze_thresholds scenarioReport).total_ratio_pass = true ∧
     (analyze_thresholds scenarioReport).quality_score_pass = true ∧
     (analyze_thresholds scenarioReport).feasibility_score_pass = true ∧
     (analyze_thresholds scenarioReport).weighted_score_pass = false ∧
     (analyze_thresholds scenarioReport).overall_pass = false) := by
  constructor
  · intro vr
    norm_num [analyze_thresholds, thresholds, Bool.and_eq_true,
      decide_eq_true_eq, and_assoc]
  · norm_num [analyze_thresholds, scenarioReport, thresholds]

/-! ## Claim C2 -/

/-- C2 (code behaviour at the failing input): validating two identical
fully-resolving entries yields 3 critical violations; the gate then
computes a critical ratio of 3/100 from a hard-coded denominator 100
and passes the 0.05 threshold, although the ratio against the real
entry count 2 is 3/2, which fails it.  The gate never sees the entry
count at all. -/
theorem C2_code_behavior :
    (validate_solution [eOne, eOne] dsOne).critical_violations = 3 ∧
    (analyze_thresholds (validate_solution [eOne, eOne] dsOne)).critical_ratio = 3/100 ∧
    (analyze_thresholds (validate_solution [eOne, eOne] dsOne)).critical_ratio_pass = true ∧
    (analyze_thresholds (validate_solution [eOne, eOne] dsOne)).total_ratio = 3/100 ∧
    ((validate_solution [eOne, eOne] dsOne).critical_violations : ℚ) /
        (([eOne, eOne] : List Entry).length : ℚ) = 3/2 ∧
    ¬ ((3 : ℚ)/2 ≤ thresholds.critical_violation_ratio_limit) := by
  have hc : (validate_solution [eOne, eOne] dsOne).critical_violations = 3 := by
    norm_num [validate_solution, runEntries, validate_single_entry, conflictStep,
      referenceViolations, resolves4, initState, updateMap, eOne, dsOne,
      validate_system_constraints, mkConflictViolation, violation_definitions,
      batch_student_count, room_capacity, roomIds, batchIds]
    decide
  have ht : (validate_solution [eOne, eOne] dsOne).total_violations = 3 := by
    norm_num [validate_solution, runEntries, validate_single_entry, conflictStep,
      referenceViolations, resolves4, initState, updateMap, eOne, dsOne,
      validate_system_constraints, mkConflictViolation, violation_definitions,
      batch_student_count, room_capacity, roomIds, batchIds]
    decide
  refine ⟨hc, ?_, ?_, ?_, ?_, ?_⟩
  · norm_num [analyze_thresholds, hc]
  · norm_num [analyze_thresholds, thresholds, hc]
  · norm_num [analyze_thresholds, ht]
  · rw [hc]
    norm_num
  · norm_num [thresholds]

/-! ## Claim C3 -/

/-- C3 counterexample: on the dataset whose only collection is the
single course C1, the empty assignment produces a non-empty violation
list (one MISSING_COURSE_ASSIGNMENT), contradicting the claimed empty
list; the two scores are 0 as claimed. -/
theorem C3_counterexample :
    (validate_solution [] dsCourseOnly).violation_details ≠ [] ∧
    (validate_solution [] dsCourseOnly).violation_details.length = 1 ∧
    ((validate_solution [] dsCourseOnly).violation_details.map (·.violation_type)) =
      [.MISSING_COURSE_ASSIGNMENT] ∧
    (validate_solution [] dsCourseOnly).quality_metrics = ⟨0, 0⟩ := by
  decide

/-- C3 (amended): for every dataset, validating an empty assignment
yields qualityScore 0 and feasibilityScore 0, and the violation list
consists of exactly one critical MISSING_COURSE_ASSIGNMENT violation
per distinct dataset course id — in particular it is empty exactly
when the dataset has no courses. -/
theorem C3_empty_assignment (ds : DataMatrix) :
    (validate_solution [] ds).quality_metrics.quality_score = 0 ∧
    (validate_solution [] ds).quality_metrics.feasibility_score = 0 ∧
    (∀ v ∈ (validate_solution [] ds).violation_details,
      v.violation_type = .MISSING_COURSE_ASSIGNMENT ∧ v.is_critical = true) ∧
    ((validate_solution [] ds).violation_details = [] ↔ ds.courses = []) ∧
    (validate_solution [] ds).violation_details.length = ds.courses.dedup.length := by
  refine ⟨?_, ?_, ?_, ?_, ?_⟩ <;>
    simp [validate_solution, runEntries, calculate_quality_metrics,
      validate_system_constraints, List.dedup_eq_nil]

/-! ## Claim C6 -/

/-- C6 counterexample: over `dsSmallRoom` the entry `eBadFaculty` has
a resolving room (capacity 10) and batch (50 students, exceeding the
capacity) but an unresolvable faculty id, and validation emits no
ROOM_CAPACITY_EXCEEDED violation, contradicting the claim that the
capacity check is independent of faculty/time-slot resolution. -/
theorem C6_counterexample :
    eBadFaculty.room_id ∈ roomIds dsSmallRoom ∧
    eBadFaculty.batch_id ∈ batchIds dsSmallRoom ∧
    batch_student_count dsSmallRoom eBadFaculty.batch_id >
      room_capacity dsSmallRoom eBadFaculty.room_id ∧
    eBadFaculty.faculty_id ∉ dsSmallRoom.faculty ∧
    ((validate_solution [eBadFaculty] dsSmallRoom).violation_details.countP
      (fun v => decide (v.violation_type = .ROOM_CAPACITY_EXCEEDED))) = 0 := by
  decide

/-- C6 (amended): an entry produces a ROOM_CAPACITY_EXCEEDED violation
(exactly one) precisely when all four conflict-gate ids — faculty,
room, time slot and batch — resolve and the batch's student count
exceeds the room's capacity; with any of the four unresolved (even
just faculty or time slot) no capacity violation is emitted. -/
theorem C6_capacity_check (ds : DataMatrix) (e : Entry) (st : BookState) :
    (validate_single_entry e ds st).1.countP
        (fun v => decide (v.violation_type = .ROOM_CAPACITY_EXCEEDED)) =
      if resolves4 ds e ∧
          batch_student_count ds e.batch_id > room_capacity ds e.room_id
      then 1 else 0 := by
  by_cases h : resolves4 ds e
  · rw [vse_resolves4 e ds st h]
    simp only [List.countP_append]
    rw [countP_referenceViolations_zero, countP_conflictStep,
      countP_conflictStep, countP_conflictStep, countP_ite_singleton]
    · simp [mkConflictViolation, h]
    · intro v hv
      rcases hv with h1 | h1 | h1 | h1 <;> simp [h1]
  · rw [vse_not_resolves4 e ds st h]
    simp only []
    rw [countP_referenceViolations_zero]
    · simp [h]
    · intro v hv
      rcases hv with h1 | h1 | h1 | h1 <;> simp [h1]

/-! ## Claims C5 and C4 -/

theorem countP_vse_ref (ds : DataMatrix) (e : Entry) (st : BookState)
    (p : ValidationViolation → Bool)
    (hf : p (mkConflictViolation .FACULTY_DOUBLE_BOOKING "FACULTY"
      e.faculty_id e.time_slot_id) = false)
    (hr : p (mkConflictViolation .ROOM_DOUBLE_BOOKING "ROOM"
      e.room_id e.time_slot_id) = false)
    (hb : p (mkConflictViolation .BATCH_TIME_CONFLICT "BATCH"
      e.batch_id e.time_slot_id) = false)
    (hc : p ⟨.ROOM_CAPACITY_EXCEEDED, .CRITICAL, e.room_id, "ROOM",
      (violation_definitions .ROOM_CAPACITY_EXCEEDED).1, true, none⟩ = false) :
    (validate_single_entry e ds st).1.countP p =
      (referenceViolations e ds).countP p := by
  by_cases h : resolves4 ds e
  · rw [vse_resolves4 e ds st h]
    simp only [List.countP_append]
    rw [countP_conflictStep, countP_conflictStep, countP_conflictStep,
      countP_ite_singleton]
    simp [hf, hr, hb, hc]
  · rw [vse_not_resolves4 e ds st h]

/-- C5 counterexample: an entry whose batch id BX does not resolve
produces a MISSING_BATCH_ASSIGNMENT violation (weight 7) and no
violation of any of the three "invalid reference" kinds, contradicting
the claim that every absent id yields the matching invalid-reference
kind. -/
theorem C5_counterexample :
    eBadBatch.batch_id ≠ "" ∧ eBadBatch.batch_id ∉ batchIds dsOne ∧
    ((validate_solution [eBadBatch] dsOne).violation_details.countP
      (fun v => decide (v.violation_type = .INVALID_FACULTY_REFERENCE ∨
        v.violation_type = .INVALID_ROOM_REFERENCE ∨
        v.violation_type = .INVALID_TIME_SLOT_REFERENCE)) = 0) ∧
    ((validate_solution [eBadBatch] dsOne).violation_details.countP
      (fun v => decide (v.violation_type = .MISSING_BATCH_ASSIGNMENT ∧
        v.entity_id = "BX"))) = 1 := by
  decide

/-- C5 (amended): each non-empty id of an entry that is absent from
its dataset collection yields exactly one CRITICAL violation, recorded
even when other ids of the same entry are also invalid, with the kinds
and weights the source actually uses: course → INVALID_FACULTY_REFERENCE
(entity type COURSE, weight 9), faculty → INVALID_FACULTY_REFERENCE
(weight 9), room → INVALID_ROOM_REFERENCE (weight 9), time slot →
INVALID_TIME_SLOT_REFERENCE (weight 8), batch →
MISSING_BATCH_ASSIGNMENT (weight 7); each weight agrees with the §6
table entry for that kind. -/
theorem C5_referential_violations (ds : DataMatrix) (e : Entry) (st : BookState) :
    (e.course_id ≠ "" → e.course_id ∉ ds.courses →
      (validate_single_entry e ds st).1.countP
        (fun v => decide (v.violation_type = .INVALID_FACULTY_REFERENCE ∧
          v.entity_type = "COURSE" ∧ v.entity_id = e.course_id ∧
          v.weight = 9 ∧ v.is_critical = true)) = 1) ∧
    (e.faculty_id ≠ "" → e.faculty_id ∉ ds.faculty →
      (validate_single_entry e ds st).1.countP
        (fun v => decide (v.violation_type = .INVALID_FACULTY_REFERENCE ∧
          v.entity_type = "FACULTY" ∧ v.entity_id = e.faculty_id ∧
          v.weight = 9 ∧ v.is_critical = true)) = 1) ∧
    (e.room_id ≠ "" → e.room_id ∉ roomIds ds →
      (validate_single_entry e ds st).1.countP
        (fun v => decide (v.violation_type = .INVALID_ROOM_REFERENCE ∧
          v.entity_type = "ROOM" ∧ v.entity_id = e.room_id ∧
          v.weight = 9 ∧ v.is_critical = true)) = 1) ∧
    (e.time_slot_id ≠ "" → e.time_slot_id ∉ ds.time_slots →
      (validate_single_entry e ds st).1.countP
        (fun v => decide (v.violation_type = .INVALID_TIME_SLOT_REFERENCE ∧
          v.entity_type = "TIME_SLOT" ∧ v.entity_id = e.time_slot_id ∧
          v.weight = 8 ∧ v.is_critical = true)) = 1) ∧
    (e.batch_id ≠ "" → e.batch_id ∉ batchIds ds →
      (validate_single_entry e ds st).1.countP
        (fun v => decide (v.violation_type = .MISSING_BATCH_ASSIGNMENT ∧
          v.entity_type = "BATCH" ∧ v.entity_id = e.batch_id ∧
          v.weight = 7 ∧ v.is_critical = true)) = 1) := by
  refine ⟨fun h1 h2 => ?_, fun h1 h2 => ?_, fun h1 h2 => ?_,
    fun h1 h2 => ?_, fun h1 h2 => ?_⟩ <;>
  · rw [countP_vse_ref ds e st _ (by simp [mkConflictViolation])
      (by simp [mkConflictViolation]) (by simp [mkConflictViolation]) (by simp)]
    unfold referenceViolations
    simp only [List.countP_append, countP_ite_singleton]
    split_ifs <;> simp_all [violation_definitions]

/-- C5 witness: over `dsOne`, the entry all five of whose ids are
unresolvable receives all five referential violations at once. -/
theorem C5_witness :
    ((validate_single_entry eAllBad dsOne initState).1.countP
      (fun v => decide (v.violation_type = .INVALID_FACULTY_REFERENCE ∧
        v.entity_type = "COURSE" ∧ v.entity_id = eAllBad.course_id ∧
        v.weight = 9 ∧ v.is_critical = true)) = 1) ∧
    ((validate_single_entry eAllBad dsOne initState).1.countP
      (fun v => decide (v.violation_type = .INVALID_FACULTY_REFERENCE ∧
        v.entity_type = "FACULTY" ∧ v.entity_id = eAllBad.faculty_id ∧
        v.weight = 9 ∧ v.is_critical = true)) = 1) ∧
    ((validate_single_entry eAllBad dsOne initState).1.countP
      (fun v => decide (v.violation_type = .INVALID_ROOM_REFERENCE ∧
        v.entity_type = "ROOM" ∧ v.entity_id = eAllBad.room_id ∧
        v.weight = 9 ∧ v.is_critical = true)) = 1) ∧
    ((validate_single_entry eAllBad dsOne initState).1.countP
      (fun v => decide (v.violation_type = .INVALID_TIME_SLOT_REFERENCE ∧
        v.entity_type = "TIME_SLOT" ∧ v.entity_id = eAllBad.time_slot_id ∧
        v.weight = 8 ∧ v.is_critical = true)) = 1) ∧
    ((validate_single_entry eAllBad dsOne initState).1.countP
      (fun v => decide (v.violation_type = .MISSING_BATCH_ASSIGNMENT ∧
        v.entity_type = "BATCH" ∧ v.entity_id = eAllBad.batch_id ∧
        v.weight = 7 ∧ v.is_critical = true)) = 1) := by
  have h := C5_referential_violations dsOne eAllBad initState
  exact ⟨h.1 (by decide) (by decide), h.2.1 (by decide) (by decide),
    h.2.2.1 (by decide) (by decide), h.2.2.2.1 (by decide) (by decide),
    h.2.2.2.2 (by decide) (by decide)⟩

/-- C4 counterexample: two entries whose course id CX does not resolve
but whose faculty, room, time-slot and batch ids all do, sharing
faculty F1 and slot T1, produce a FACULTY_DOUBLE_BOOKING violation —
contradicting the claim that an entry with an unresolvable course id
contributes no double-booking violation. -/
theorem C4_counterexample :
    eBadCourse.course_id ∉ dsOne.courses ∧
    conflictCount .FACULTY_DOUBLE_BOOKING "F1" "T1"
      (validate_solution [eBadCourse, eBadCourse] dsOne).violation_details = 1 := by
  decide

/-- C4 (amended): the conflict bookkeeping of an entry runs exactly
when its faculty, room, time-slot and batch ids all resolve — the
course id plays no role in the gate.  When one of the four does not
resolve, the entry leaves the booking state untouched and contributes
no conflict or capacity violation; when all four resolve, its time
slot is booked for its faculty, room and batch (whether or not the
course id resolves). -/
theorem C4_conflict_gate (ds : DataMatrix) (e : Entry) (st : BookState) :
    (¬ resolves4 ds e →
      validate_single_entry e ds st = (referenceViolations e ds, st) ∧
      (validate_single_entry e ds st).1.countP
        (fun v => decide (v.violation_type = .FACULTY_DOUBLE_BOOKING ∨
          v.violation_type = .ROOM_DOUBLE_BOOKING ∨
          v.violation_type = .BATCH_TIME_CONFLICT ∨
          v.violation_type = .ROOM_CAPACITY_EXCEEDED)) = 0) ∧
    (resolves4 ds e →
      e.time_slot_id ∈
        (validate_single_entry e ds st).2.faculty_assignments e.faculty_id ∧
      e.time_slot_id ∈
        (validate_single_entry e ds st).2.room_assignments e.room_id ∧
      e.time_slot_id ∈
        (validate_single_entry e ds st).2.batch_assignments e.batch_id) := by
  constructor
  · intro h
    refine ⟨vse_not_resolves4 e ds st h, ?_⟩
    rw [vse_not_resolves4 e ds st h]
    exact countP_referenceViolations_zero e ds _
      (fun v hv => by rcases hv with h1 | h1 | h1 | h1 <;> simp [h1])
  · intro h
    rw [vse_resolves4 e ds st h]
    refine ⟨?_, ?_, ?_⟩ <;>
      exact (conflictStep_snd_mem _ _ _ _ _ _ _).mpr (Or.inr ⟨rfl, rfl⟩)

/-- C4 witness: the gate theorem applied on both sides — the entry
with an unresolvable course id still books F1/R1/B1 at T1, and the
entry with no resolvable id leaves no conflict violation. -/
theorem C4_witness :
    ("T1" ∈ (validate_single_entry eBadCourse dsOne initState).2.faculty_assignments "F1" ∧
     "T1" ∈ (validate_single_entry eBadCourse dsOne initState).2.room_assignments "R1" ∧
     "T1" ∈ (validate_single_entry eBadCourse dsOne initState).2.batch_assignments "B1") ∧
    (validate_single_entry eAllBad dsOne initState).1.countP
      (fun v => decide (v.violation_type = .FACULTY_DOUBLE_BOOKING ∨
        v.violation_type = .ROOM_DOUBLE_BOOKING ∨
        v.violation_type = .BATCH_TIME_CONFLICT ∨
        v.violation_type = .ROOM_CAPACITY_EXCEEDED)) = 0 := by
  have h1 := (C4_conflict_gate dsOne eBadCourse initState).2 (by decide)
  have h2 := (C4_conflict_gate dsOne eAllBad initState).1 (by decide)
  exact ⟨h1, h2.2⟩

/-- C3 witness: the amended empty-assignment theorem instantiated on
the witness matrix `dsW`. -/
theorem C3_witness :
    (validate_solution [] dsW).quality_metrics.quality_score = 0 ∧
    (validate_solution [] dsW).quality_metrics.feasibility_score = 0 ∧
    (validate_solution [] dsW).violation_details.length = dsW.courses.dedup.length := by
  have h := C3_empty_assignment dsW
  exact ⟨h.1, h.2.1, h.2.2.2.2⟩

/-- C6 witness: on `dsSmallRoom` the fully-resolving entry `eOne`
(batch of 50 in a room of 10) receives exactly one
ROOM_CAPACITY_EXCEEDED violation. -/
theorem C6_witness :
    (validate_single_entry eOne dsSmallRoom initState).1.countP
      (fun v => decide (v.violation_type = .ROOM_CAPACITY_EXCEEDED)) = 1 := by
  have h := C6_capacity_check dsSmallRoom eOne initState
  exact h.trans (by decide)

/-! ## Claim C1: counting conflict violations -/

theorem vse_count_fdb (ds : DataMatrix) (e : Entry) (st : BookState) (f t : String) :
    conflictCount .FACULTY_DOUBLE_BOOKING f t (validate_single_entry e ds st).1 =
      if resolves4 ds e ∧ e.faculty_id = f ∧ e.time_slot_id = t ∧
          t ∈ st.faculty_assignments f then 1 else 0 := by
  unfold conflictCount
  by_cases h : resolves4 ds e
  · rw [vse_resolves4 e ds st h]
    simp only [List.countP_append]
    rw [countP_referenceViolations_zero e ds _
        (fun v hv => by rcases hv with h1 | h1 | h1 | h1 <;> simp [h1]),
      countP_conflictStep, countP_conflictStep, countP_conflictStep,
      countP_ite_singleton]
    by_cases hf : e.faculty_id = f <;> by_cases ht : e.time_slot_id = t
    · subst hf; subst ht
      simp [mkConflictViolation, h]
    · subst hf
      simp [mkConflictViolation, h, ht]
    · subst ht
      simp [mkConflictViolation, h, hf]
    · simp [mkConflictViolation, h, hf, ht]
  · rw [vse_not_resolves4 e ds st h]
    rw [countP_referenceViolations_zero e ds _
      (fun v hv => by rcases hv with h1 | h1 | h1 | h1 <;> simp [h1])]
    simp [h]

theorem vse_count_rdb (ds : DataMatrix) (e : Entry) (st : BookState) (r t : String) :
    conflictCount .ROOM_DOUBLE_BOOKING r t (validate_single_entry e ds st).1 =
      if resolves4 ds e ∧ e.room_id = r ∧ e.time_slot_id = t ∧
          t ∈ st.room_assignments r then 1 else 0 := by
  unfold conflictCount
  by_cases h : resolves4 ds e
  · rw [vse_resolves4 e ds st h]
    simp only [List.countP_append]
    rw [countP_referenceViolations_zero e ds _
        (fun v hv => by rcases hv with h1 | h1 | h1 | h1 <;> simp [h1]),
      countP_conflictStep, countP_conflictStep, countP_conflictStep,
      countP_ite_singleton]
    by_cases hr : e.room_id = r <;> by_cases ht : e.time_slot_id = t
    · subst hr; subst ht
      simp [mkConflictViolation, h]
    · subst hr
      simp [mkConflictViolation, h, ht]
    · subst ht
      simp [mkConflictViolation, h, hr]
    · simp [mkConflictViolation, h, hr, ht]
  · rw [vse_not_resolves4 e ds st h]
    rw [countP_referenceViolations_zero e ds _
      (fun v hv => by rcases hv with h1 | h1 | h1 | h1 <;> simp [h1])]
    simp [h]

theorem vse_count_btc (ds : DataMatrix) (e : Entry) (st : BookState) (b t : String) :
    conflictCount .BATCH_TIME_CONFLICT b t (validate_single_entry e ds st).1 =
      if resolves4 ds e ∧ e.batch_id = b ∧ e.time_slot_id = t ∧
          t ∈ st.batch_assignments b then 1 else 0 := by
  unfold conflictCount
  by_cases h : resolves4 ds e
  · rw [vse_resolves4 e ds st h]
    simp only [List.countP_append]
    rw [countP_referenceViolations_zero e ds _
        (fun v hv => by rcases hv with h1 | h1 | h1 | h1 <;> simp [h1]),
      countP_conflictStep, countP_conflictStep, countP_conflictStep,
      countP_ite_singleton]
    by_cases hb : e.batch_id = b <;> by_cases ht : e.time_slot_id = t
    · subst hb; subst ht
      simp [mkConflictViolation, h]
    · subst hb
      simp [mkConflictViolation, h, ht]
    · subst ht
      simp [mkConflictViolation, h, hb]
    · simp [mkConflictViolation, h, hb, ht]
  · rw [vse_not_resolves4 e ds st h]
    rw [countP_referenceViolations_zero e ds _
      (fun v hv => by rcases hv with h1 | h1 | h1 | h1 <;> simp [h1])]
    simp [h]

theorem vse_snd_fa (ds : DataMatrix) (e : Entry) (st : BookState)
    (h : resolves4 ds e) (f t : String) :
    t ∈ (validate_single_entry e ds st).2.faculty_assignments f ↔
      t ∈ st.faculty_assignments f ∨ (e.faculty_id = f ∧ e.time_slot_id = t) := by
  rw [vse_resolves4 e ds st h]
  exact conflictStep_snd_mem _ _ _ _ _ _ _

theorem vse_snd_rm (ds : DataMatrix) (e : Entry) (st : BookState)
    (h : resolves4 ds e) (r t : String) :
    t ∈ (validate_single_entry e ds st).2.room_assignments r ↔
      t ∈ st.room_assignments r ∨ (e.room_id = r ∧ e.time_slot_id = t) := by
  rw [vse_resolves4 e ds st h]
  exact conflictStep_snd_mem _ _ _ _ _ _ _

theorem vse_snd_ba (ds : DataMatrix) (e : Entry) (st : BookState)
    (h : resolves4 ds e) (b t : String) :
    t ∈ (validate_single_entry e ds st).2.batch_assignments b ↔
      t ∈ st.batch_assignments b ∨ (e.batch_id = b ∧ e.time_slot_id = t) := by
  rw [vse_resolves4 e ds st h]
  exact conflictStep_snd_mem _ _ _ _ _ _ _

theorem pairCount_cons (sel : Entry → String) (id t : String) (e : Entry)
    (es : List Entry) :
    pairCount sel id t (e :: es) =
      pairCount sel id t es + (if sel e = id ∧ e.time_slot_id = t then 1 else 0) := by
  simp [pairCount, List.countP_cons]

theorem runEntries_count_fdb (ds : DataMatrix) (f t : String) :
    ∀ (es : List Entry) (st : BookState), (∀ e ∈ es, resolves4 ds e) →
      conflictCount .FACULTY_DOUBLE_BOOKING f t (runEntries ds es st).1 =
        if t ∈ st.faculty_assignments f
        then pairCount (·.faculty_id) f t es
        else pairCount (·.faculty_id) f t es - 1 := by
  intro es
  induction es with
  | nil =>
    intro st _
    simp [runEntries, conflictCount, pairCount]
  | cons e es ih =>
    intro st h
    have he : resolves4 ds e := h e (List.mem_cons_self e es)
    have hes : ∀ x ∈ es, resolves4 ds x := fun x hx => h x (List.mem_cons_of_mem e hx)
    simp only [runEntries]
    rw [conflictCount, List.countP_append, ← conflictCount, ← conflictCount,
      vse_count_fdb, ih _ hes, pairCount_cons]
    by_cases hp : e.faculty_id = f ∧ e.time_slot_id = t <;>
      by_cases hm : t ∈ st.faculty_assignments f <;>
        simp [vse_snd_fa ds e st he, he, hp, hm] <;> omega

theorem runEntries_count_rdb (ds : DataMatrix) (r t : String) :
    ∀ (es : List Entry) (st : BookState), (∀ e ∈ es, resolves4 ds e) →
      conflictCount .ROOM_DOUBLE_BOOKING r t (runEntries ds es st).1 =
        if t ∈ st.room_assignments r
        then pairCount (·.room_id) r t es
        else pairCount (·.room_id) r t es - 1 := by
  intro es
  induction es with
  | nil =>
    intro st _
    simp [runEntries, conflictCount, pairCount]
  | cons e es ih =>
    intro st h
    have he : resolves4 ds e := h e (List.mem_cons_self e es)
    have hes : ∀ x ∈ es, resolves4 ds x := fun x hx => h x (List.mem_cons_of_mem e hx)
    simp only [runEntries]
    rw [conflictCount, List.countP_append, ← conflictCount, ← conflictCount,
      vse_count_rdb, ih _ hes, pairCount_cons]
    by_cases hp : e.room_id = r ∧ e.time_slot_id = t <;>
      by_cases hm : t ∈ st.room_assignments r <;>
        simp [vse_snd_rm ds e st he, he, hp, hm] <;> omega

theorem runEntries_count_btc (ds : DataMatrix) (b t : String) :
    ∀ (es : List Entry) (st : BookState), (∀ e ∈ es, resolves4 ds e) →
      conflictCount .BATCH_TIME_CONFLICT b t (runEntries ds es st).1 =
        if t ∈ st.batch_assignments b
        then pairCount (·.batch_id) b t es
        else pairCount (·.batch_id) b t es - 1 := by
  intro es
  induction es with
  | nil =>
    intro st _
    simp [runEntries, conflictCount, pairCount]
  | cons e es ih =>
    intro st h
    have he : resolves4 ds e := h e (List.mem_cons_self e es)
    have hes : ∀ x ∈ es, resolves4 ds x := fun x hx => h x (List.mem_cons_of_mem e hx)
    simp only [runEntries]
    rw [conflictCount, List.countP_append, ← conflictCount, ← conflictCount,
      vse_count_btc, ih _ hes, pairCount_cons]
    by_cases hp : e.batch_id = b ∧ e.time_slot_id = t <;>
      by_cases hm : t ∈ st.batch_assignments b <;>
        simp [vse_snd_ba ds e st he, he, hp, hm] <;> omega

theorem conflictCount_system (so : List Entry) (ds : DataMatrix)
    (vt : ViolationType) (id slot : String) :
    conflictCount vt id slot (validate_system_constraints so ds) = 0 := by
  unfold conflictCount validate_system_constraints
  rw [List.countP_eq_zero]
  intro v hv
  simp only [List.mem_map] at hv
  obtain ⟨c, -, rfl⟩ := hv
  simp

theorem conflictCount_validate_solution (so : List Entry) (ds : DataMatrix)
    (vt : ViolationType) (id slot : String) :
    conflictCount vt id slot (validate_solution so ds).violation_details =
      conflictCount vt id slot (runEntries ds so initState).1 := by
  show conflictCount vt id slot
    ((runEntries ds so initState).1 ++ validate_system_constraints so ds) = _
  rw [conflictCount, List.countP_append, ← conflictCount, ← conflictCount,
    conflictCount_system so ds vt id slot]
  exact Nat.add_zero _

/-- C1: when every id of every entry resolves, the validator emits
exactly k−1 FACULTY_DOUBLE_BOOKING violations for a (faculty, slot)
pair occurring in k entries, exactly k−1 ROOM_DOUBLE_BOOKING
violations for a (room, slot) pair occurring in k entries, and exactly
k−1 BATCH_TIME_CONFLICT violations for a (batch, slot) pair occurring
in k entries; each of the three counts is invariant under any
permutation of the assignment's entries. -/
theorem C1_conflict_counts (ds : DataMatrix) (es : List Entry)
    (h : ∀ e ∈ es, resolvesAll ds e) (f r b t : String) :
    (conflictCount .FACULTY_DOUBLE_BOOKING f t
        (validate_solution es ds).violation_details =
      pairCount (·.faculty_id) f t es - 1) ∧
    (conflictCount .ROOM_DOUBLE_BOOKING r t
        (validate_solution es ds).violation_details =
      pairCount (·.room_id) r t es - 1) ∧
    (conflictCount .BATCH_TIME_CONFLICT b t
        (validate_solution es ds).violation_details =
      pairCount (·.batch_id) b t es - 1) ∧
    (∀ es2 : List Entry, es.Perm es2 →
      conflictCount .FACULTY_DOUBLE_BOOKING f t
          (validate_solution es2 ds).violation_details =
        conflictCount .FACULTY_DOUBLE_BOOKING f t
          (validate_solution es ds).violation_details ∧
      conflictCount .ROOM_DOUBLE_BOOKING r t
          (validate_solution es2 ds).violation_details =
        conflictCount .ROOM_DOUBLE_BOOKING r t
          (validate_solution es ds).violation_details ∧
      conflictCount .BATCH_TIME_CONFLICT b t
          (validate_solution es2 ds).violation_details =
        conflictCount .BATCH_TIME_CONFLICT b t
          (validate_solution es ds).violation_details) := by
  have h4 : ∀ e ∈ es, resolves4 ds e := fun e he => (h e he).2
  have main : ∀ (es' : List Entry), (∀ e ∈ es', resolves4 ds e) →
      conflictCount .FACULTY_DOUBLE_BOOKING f t
          (validate_solution es' ds).violation_details =
        pairCount (·.faculty_id) f t es' - 1 ∧
      conflictCount .ROOM_DOUBLE_BOOKING r t
          (validate_solution es' ds).violation_details =
        pairCount (·.room_id) r t es' - 1 ∧
      conflictCount .BATCH_TIME_CONFLICT b t
          (validate_solution es' ds).violation_details =
        pairCount (·.batch_id) b t es' - 1 := by
    intro es' h4'
    refine ⟨?_, ?_, ?_⟩
    · rw [conflictCount_validate_solution es' ds _ f t,
        runEntries_count_fdb ds f t es' initState h4']
      simp [initState]
    · rw [conflictCount_validate_solution es' ds _ r t,
        runEntries_count_rdb ds r t es' initState h4']
      simp [initState]
    · rw [conflictCount_validate_solution es' ds _ b t,
        runEntries_count_btc ds b t es' initState h4']
      simp [initState]
  obtain ⟨m1, m2, m3⟩ := main es h4
  refine ⟨m1, m2, m3, fun es2 hperm => ?_⟩
  have h42 : ∀ e ∈ es2, resolves4 ds e := fun e he => h4 e (hperm.mem_iff.mpr he)
  obtain ⟨n1, n2, n3⟩ := main es2 h42
  refine ⟨?_, ?_, ?_⟩
  · rw [n1, m1]
    unfold pairCount
    rw [hperm.countP_eq]
  · rw [n2, m2]
    unfold pairCount
    rw [hperm.countP_eq]
  · rw [n3, m3]
    unfold pairCount
    rw [hperm.countP_eq]

/-- C1 witness: over `dsW`, three fully-resolving entries share
faculty F1 and slot T1 in pairwise distinct rooms and batches, and
validation emits exactly 2 FACULTY_DOUBLE_BOOKING violations for
(F1, T1) and none for (R1, T1) or (B1, T1). -/
theorem C1_witness :
    conflictCount .FACULTY_DOUBLE_BOOKING "F1" "T1"
        (validate_solution esW dsW).violation_details = 2 ∧
    conflictCount .ROOM_DOUBLE_BOOKING "R1" "T1"
        (validate_solution esW dsW).violation_details = 0 ∧
    conflictCount .BATCH_TIME_CONFLICT "B1" "T1"
        (validate_solution esW dsW).violation_details = 0 := by
  have h := C1_conflict_counts dsW esW (by decide) "F1" "R1" "B1" "T1"
  exact ⟨h.1.trans (by decide), h.2.1.trans (by decide), h.2.2.1.trans (by decide)⟩

/-! ## Claim C8 -/

/-- C8 (code behaviour at the failing input): on a well-formed matrix
with one entity of each kind, no hard constraint and one soft
constraint, the computed profile's constraint-complexity sub-score is
(0·2 + 1·1)/5 = 0.2, falling outside the [1,10] interval the
`ComplexityProfile` dataclass documents for it. -/
theorem C8_code_behavior :
    (analyze_complexity (.wellFormed countsSoftOnly)).constraint_complexity = 1/5 ∧
    ¬ (1 ≤ (analyze_complexity (.wellFormed countsSoftOnly)).constraint_complexity) := by
  have h : (analyze_complexity (.wellFormed countsSoftOnly)).constraint_complexity =
      analyze_constraint_complexity 0 1 := rfl
  rw [h]
  norm_num [analyze_constraint_complexity]

/-! ## Claim C9 -/

/-- C9: the profiler never propagates an internal error — whenever the
body of `analyze_complexity` raises, the caller receives the safe
neutral profile with all four dimension scores 5.0, overall 5.0 and
difficulty MODERATE, instead of an exception. -/
theorem C9_profiler_safe (m : OptimizationMatrix) (msg : String)
    (h : analyze_complexity_body m = .error msg) :
    analyze_complexity m = neutral_profile ∧
    neutral_profile.combinatorial_score = 5 ∧
    neutral_profile.constraint_complexity = 5 ∧
    neutral_profile.resource_competition = 5 ∧
    neutral_profile.schedule_density = 5 ∧
    neutral_profile.overall_complexity = 5 ∧
    neutral_profile.difficulty_level = "MODERATE" := by
  refine ⟨?_, rfl, rfl, rfl, rfl, rfl, rfl⟩
  unfold analyze_complexity
  rw [h]

/-- C9 witness: a malformed matrix raises in the body and the profiler
returns the neutral profile for it. -/
theorem C9_witness :
    analyze_complexity (.malformed "AttributeError") = neutral_profile := by
  exact (C9_profiler_safe (.malformed "AttributeError") "AttributeError" rfl).1

/-! ## Claim C10 -/

theorem foldl_pyMax_val (p : String × ℚ) (ps : List (String × ℚ)) :
    (ps.foldl (fun acc q => if q.2 > acc.2 then q else acc) p).2 =
      (ps.map (·.2)).foldl max p.2 := by
  induction ps generalizing p with
  | nil => rfl
  | cons q qs ih =>
    simp only [List.foldl_cons, List.map_cons]
    rw [ih]
    have : (if q.2 > p.2 then q else p).2 = max p.2 q.2 := by
      by_cases hq : q.2 > p.2
      · simp [hq, max_eq_right (le_of_lt hq)]
      · simp [hq, max_eq_left (not_lt.mp hq)]
    rw [this]

theorem pyMaxByValue_val (m : List (String × ℚ)) (h : m ≠ []) :
    ∃ best, pyMaxByValue m = some best ∧ best.2 = valuesMax m := by
  match m with
  | p :: ps => exact ⟨_, rfl, foldl_pyMax_val p ps⟩

theorem dictInsert_ne_nil (m : List (String × ℚ)) (k : String) (v : ℚ) :
    dictInsert m k v ≠ [] := by
  unfold dictInsert
  split_ifs with h
  · intro hc
    rw [List.map_eq_nil] at hc
    subst hc
    simp at h
  · simp

theorem solver_scores_ne_nil (profile : ComplexityProfile)
    (solvers : List SolverInfo) (h : solvers ≠ []) :
    solver_scores profile solvers ≠ [] := by
  unfold solver_scores
  match solvers with
  | s :: rest =>
    simp only [List.foldl_cons]
    have : ∀ (l : List SolverInfo) (m : List (String × ℚ)), m ≠ [] →
        l.foldl (fun m s => dictInsert m s.name (calculate_solver_score profile s)) m ≠ [] := by
      intro l
      induction l with
      | nil => exact fun m hm => hm
      | cons x xs ih => exact fun m hm => ih _ (dictInsert_ne_nil m _ _)
    exact this rest _ (dictInsert_ne_nil [] _ _)

/-- C10: the selector's confidence equals
min(1, bestScore × (1 + (maxScore − minScore))) over the catalog's
score map (the best score being the maximum of all scores), and
consequently for a one-solver catalog `select_best_solver` returns
that solver with its own score and confidence min(1, score). -/
theorem C10_selector_confidence (profile : ComplexityProfile) :
    (∀ available_solvers : List SolverInfo, available_solvers ≠ [] →
      (select_best_solver profile available_solvers).confidence_level =
        min 1 (valuesMax (solver_scores profile available_solvers) *
          (1 + (valuesMax (solver_scores profile available_solvers) -
                valuesMin (solver_scores profile available_solvers))))) ∧
    (∀ s : SolverInfo,
      (select_best_solver profile [s]).selected_solver_name = s.name ∧
      (select_best_solver profile [s]).selection_score =
        calculate_solver_score profile s ∧
      (select_best_solver profile [s]).confidence_level =
        min 1 (calculate_solver_score profile s)) := by
  constructor
  · intro solvers hne
    obtain ⟨best, hbest, hval⟩ :=
      pyMaxByValue_val _ (solver_scores_ne_nil profile solvers hne)
    simp only [select_best_solver, hbest, hval]
  · intro s
    have hs : solver_scores profile [s] =
        [(s.name, calculate_solver_score profile s)] := by
      simp [solver_scores, dictInsert]
    unfold select_best_solver
    rw [hs]
    simp [pyMaxByValue, valuesMax, valuesMin]

/-- C10 witness: a one-solver catalog at the neutral profile. -/
theorem C10_witness :
    (select_best_solver profileW [solverW]).selected_solver_name = "OnlySolver" ∧
    (select_best_solver profileW [solverW]).confidence_level =
      min 1 (calculate_solver_score profileW solverW) ∧
    (select_best_solver profileW [solverW]).confidence_level =
      min 1 (valuesMax (solver_scores profileW [solverW]) *
        (1 + (valuesMax (solver_scores profileW [solverW]) -
              valuesMin (solver_scores profileW [solverW])))) := by
  have h1 := (C10_selector_confidence profileW).1 [solverW] (by simp)
  have h2 := (C10_selector_confidence profileW).2 solverW
  exact ⟨h2.1.trans rfl, h2.2.2, h1⟩

end NEP
